import Mathlib

/-!
Shallow embedding of `src/trello_backup.py` (a Trello board/attachment
export script) and proofs about the claims of its specification.

Modelling conventions:
* Python strings are Lean `String`s; per-character operations go through
  `List Char`.  `str.isalnum` is modelled by `Char.isAlphanum` (the data
  handled by the script is ASCII identifiers, URLs and file names).
* `urllib.parse.urlparse(url).path` is modelled for absolute `http(s)`
  URLs: everything after `scheme://netloc` up to the first `?` or `#`;
  a URL with no `://` is taken to be all path (as `urlparse` does for
  scheme-less, netloc-less inputs).
* The network is an oracle.  `trello_get` consumes an explicit list of
  HTTP responses the server would give to the successive (re)tries and
  records an event trace (requests issued, sleeps performed).  The
  download oracle `ok : String → Bool` tells whether the streaming GET
  for a URL succeeds; the filesystem is the list of file paths that
  exist.
* Exceptions are `Except`/error results.  The `except Exception` branch
  of `export_board` (source lines 177-187) first prints the failure
  message and then evaluates `print(...)(...)` — calling `None` with a
  stray pasted argument list — which raises an uncaught `TypeError`;
  it is modelled by the error value `PyError.typeErrorNoneCall` carrying
  the sanitized file name that was logged.
-/

namespace TrelloBackup

/-- Decides whether `pat` is an initial segment of `s` (character lists). -/
def leadMatch : List Char → List Char → Bool
  | [], _ => true
  | _ :: _, [] => false
  | a :: as, b :: bs => a == b && leadMatch as bs

/-- Decides whether `pat` occurs as a contiguous substring of `s`
(character lists); models Python's `pat in s`. -/
def listHasSub (pat : List Char) : List Char → Bool
  | [] => leadMatch pat []
  | c :: rest => leadMatch pat (c :: rest) || listHasSub pat rest

/-- Models Python's substring test `pat in s` on strings. -/
def strHasSub (s pat : String) : Bool :=
  listHasSub pat.toList s.toList

/-- Models `str.endswith` on strings (used only by the spec-modelled
host-based classifier). -/
def strEndsWithStr (s suf : String) : Bool :=
  leadMatch suf.toList.reverse s.toList.reverse

/-- Source line 171: the per-character sanitization
`ch if ch.isalnum() or ch in '._-' else '_'`. -/
def sanitizeChar (c : Char) : Char :=
  if c.isAlphanum || c == '.' || c == '_' || c == '-' then c else '_'

/-- Source line 171: `safe_name = ''.join(sanitizeChar ch for ch in filename)`. -/
def sanitizeName (s : String) : String :=
  String.mk (s.toList.map sanitizeChar)

/-- Source line 120: `slug = "".join(c if c.isalnum() else "_" for c in board_name)`. -/
def boardSlug (name : String) : String :=
  String.mk (name.toList.map (fun c => if c.isAlphanum then c else '_'))

/-- Characters of a URL after the first `://` marker, if any. -/
def afterSchemeMark : List Char → Option (List Char)
  | ':' :: '/' :: '/' :: rest => some rest
  | _ :: rest => afterSchemeMark rest
  | [] => none

/-- Cuts a path at the first `?` (query) or `#` (fragment). -/
def stripQueryFrag (s : List Char) : List Char :=
  s.takeWhile (fun c => !(c == '?' || c == '#'))

/-- Models `urlparse(url).path` for the URLs the script handles:
drop `scheme://netloc`, keep the path up to the query/fragment. -/
def urlPathChars (url : List Char) : List Char :=
  match afterSchemeMark url with
  | some rest => stripQueryFrag (rest.dropWhile (fun c => !(c == '/')))
  | none => stripQueryFrag url

/-- `urlparse(url).path` as a string. -/
def urlPath (url : String) : String :=
  String.mk (urlPathChars url.toList)

/-- Models Python's `str.split(sep)` for a one-character separator:
always returns at least one (possibly empty) piece. -/
def splitOnChar (sep : Char) : List Char → List (List Char)
  | [] => [[]]
  | c :: rest =>
    let r := splitOnChar sep rest
    if c == sep then [] :: r
    else
      match r with
      | g :: gs => (c :: g) :: gs
      | [] => [[c]]

/-- Source line 159: `path_parts = urlparse(url).path.split('/')`. -/
def pathParts (url : String) : List String :=
  (splitOnChar '/' (urlPathChars url.toList)).map String.mk

/-- Index of the first element satisfying `p`; models Python's
`list.index` (which returns the first occurrence, `ValueError` → `none`). -/
def firstIdx (p : α → Bool) : List α → Option Nat
  | [] => none
  | a :: as => if p a then some 0 else (firstIdx p as).map (fun i => i + 1)

/-- Source line 21. -/
def DEBUG : Bool := true

/-- Source line 22. -/
def DEBUG_BOARD_ID : String := "5f67b24e3bf4a71838a837cf"

/-- An attachment object as fetched from the API: the two fields the
script requests (`attachment_fields="name,url"`); `none` models an
absent key (`att.get(...)` returning `None`). -/
structure Attachment where
  url : Option String
  name : Option String
deriving DecidableEq, Repr

/-- A card of the fetched board payload.  `local_attachments` is the
field the exporter adds; it is absent (`none`) on a freshly fetched card. -/
structure Card where
  id : String
  idList : String
  attachments : List Attachment
  local_attachments : Option (List String)
deriving DecidableEq, Repr

/-- A board summary as returned by `/members/me/boards`
(`fields="name,closed,dateLastActivity"`); `closed` is `b.get("closed")`. -/
structure Board where
  id : String
  name : String
  closed : Option Bool
deriving DecidableEq, Repr

/-- The nested board payload, restricted to the part the claims are
about (the card list). -/
structure BoardData where
  cards : List Card
deriving DecidableEq, Repr

/-- An HTTP response from the rate-limit oracle: status code, the parsed
integer value of the `Retry-After` header if present, and the payload
the body parses to. -/
structure HttpResp (α : Type) where
  status : Nat
  retryAfter : Option Nat
  payload : α
deriving DecidableEq, Repr

/-- Observable outcome of `trello_get`: a parsed body, an HTTP error
raised by `raise_for_status`, or exhaustion of the modelled response
list (the server gave no further answer). -/
inductive FetchOutcome (α : Type) where
  | ok (payload : α)
  | httpError (status : Nat)
  | exhausted
deriving DecidableEq, Repr

/-- Events of the fetch trace, in chronological order: an outbound
request carrying its endpoint and parameters, or a sleep of `d`
time-units. -/
inductive FetchEvent (π : Type) where
  | request (endpoint : String) (params : π)
  | sleep (d : Nat)
deriving DecidableEq, Repr

/-- Source lines 92-101: `trello_get` issues the request, and on a 429
response sleeps `int(headers.get("Retry-After", 3))` time-units and
retries the identical request; any other status ≥ 400 raises via
`raise_for_status`, otherwise the JSON body is returned.  The function
consumes the list of successive server responses and returns the event
trace together with the outcome. -/
def trello_get {π α : Type} (endpoint : String) (params : π) :
    List (HttpResp α) → List (FetchEvent π) × FetchOutcome α
  | [] => ([], FetchOutcome.exhausted)
  | r :: rest =>
    if r.status == 429 then
      let d := r.retryAfter.getD 3
      let t := trello_get endpoint params rest
      (FetchEvent.request endpoint params :: FetchEvent.sleep d :: t.1, t.2)
    else if 400 ≤ r.status ∧ r.status < 600 then
      ([FetchEvent.request endpoint params], FetchOutcome.httpError r.status)
    else
      ([FetchEvent.request endpoint params], FetchOutcome.ok r.payload)

/-- Result of one `download_file` call: the filesystem afterwards, how
many network requests were issued, and whether the call returned
normally (`false` models the `raise_for_status` exception). -/
structure DlOutcome where
  fs : List String
  requests : Nat
  success : Bool
deriving DecidableEq, Repr

/-- Source lines 104-113: `download_file(url, dest)` returns immediately
when `dest` exists; otherwise it performs one authenticated GET, and on
success streams the body to `dest` (the path now exists).  On an HTTP
error `raise_for_status` raises before anything is written. -/
def download_file (ok : String → Bool) (url : String) (dest : String)
    (fs : List String) : DlOutcome :=
  if fs.contains dest then ⟨fs, 0, true⟩
  else if ok url then ⟨dest :: fs, 1, true⟩
  else ⟨fs, 1, false⟩

/-- Source lines 138-140: an attachment is treated as a Trello card
attachment iff its URL (defaulted to `''`) is truthy and the whole URL
contains the substrings `trello.com` and `/cards/`. -/
def is_trello_card_image (att : Attachment) : Bool :=
  let url := att.url.getD ""
  !url.isEmpty && strHasSub url "trello.com" && strHasSub url "/cards/"

/-- Truthiness of `att.get('url')`: the key is present and non-empty. -/
def hasUrl (att : Attachment) : Bool :=
  !(att.url.getD "").isEmpty

/-- Source lines 159-164: the attachment identifier is the path segment
immediately following the first `attachments` segment of the URL path;
`ValueError` (no such segment) and `IndexError` (nothing follows it)
both yield the sentinel `unknown`. -/
def extractAttachmentId (url : String) : String :=
  match firstIdx (fun s => s == "attachments") (pathParts url) with
  | some i => (pathParts url).getD (i + 1) "unknown"
  | none => "unknown"

/-- Source line 170: `filename = att.get('name') or path_parts[-1]`
(Python `or`: an absent or empty name falls back to the last path
segment). -/
def attFilename (att : Attachment) : String :=
  let parts := pathParts (att.url.getD "")
  match att.name with
  | some nm => if nm.isEmpty then parts.getLastD "" else nm
  | none => parts.getLastD ""

/-- Source lines 153-172: the destination path
`Path(slug) / "attachments" / f"{card_id}_{attachment_id}" / safe_name`
rendered as a `/`-separated string. -/
def localAttachmentPath (slug cardId attId fname : String) : String :=
  slug ++ "/attachments/" ++ cardId ++ "_" ++ attId ++ "/" ++ sanitizeName fname

/-- The destination path the exporter derives for one attachment of the
card `cardId` on the board with directory `slug`. -/
def attDest (slug cardId : String) (att : Attachment) : String :=
  localAttachmentPath slug cardId (extractAttachmentId (att.url.getD ""))
    (attFilename att)

/-- An uncaught Python exception propagating out of `export_board`. -/
inductive PyError where
  | httpError (status : Nat)
  | typeErrorNoneCall (loggedName : String)
deriving DecidableEq, Repr

/-- Source lines 156-188: the per-attachment download loop over
`atts_with_images`.  On success the destination is appended to the
accumulated `local_attachments`; on a download failure the `except`
branch logs `f"Failed {safe_name}: {e}"` and then evaluates
`print(...)(...)` — a call on `None` — raising an uncaught `TypeError`
that aborts the whole loop. -/
def processAtts (ok : String → Bool) (slug cardId : String) :
    List Attachment → List String → List String → Nat →
    Except PyError (List String × List String × Nat)
  | [], fs, acc, n => Except.ok (acc, fs, n)
  | att :: rest, fs, acc, n =>
    let url := att.url.getD ""
    let dest := attDest slug cardId att
    let r := download_file ok url dest fs
    if r.success then
      processAtts ok slug cardId rest r.fs (acc ++ [dest]) (n + r.requests)
    else
      Except.error (PyError.typeErrorNoneCall (sanitizeName (attFilename att)))

/-- Source line 135: `atts = card.get('attachments', []) or
trello_get(f"/cards/{card.id}/attachments")` — an empty inline list
falls back to a dedicated fetch, modelled by the oracle `fallback`. -/
def resolvedAtts (fallback : String → List Attachment) (card : Card) :
    List Attachment :=
  if card.attachments.isEmpty then fallback card.id else card.attachments

/-- Source lines 132-188: processing of one card inside `export_board`.
Cards outside the debug list are skipped entirely while `DEBUG` holds;
otherwise the attachments are partitioned into Trello-hosted ones
(downloaded) and other URL-bearing ones (recorded literally), and
`local_attachments` is assembled exactly as the source does
(assignment of the foreign URLs at line 148, `setdefault(...).append`
at line 176). -/
def processCard (fallback : String → List Attachment) (ok : String → Bool)
    (slug : String) (fs : List String) (card : Card) :
    Except PyError (Card × List String × Nat) :=
  if DEBUG && card.idList != DEBUG_BOARD_ID then Except.ok (card, fs, 0)
  else
    let atts := resolvedAtts fallback card
    let attsWithImages := atts.filter is_trello_card_image
    let attsWithUrls := atts.filter (fun a => hasUrl a && !is_trello_card_image a)
    let card1 :=
      if attsWithUrls.isEmpty then card
      else { card with
              local_attachments := some (attsWithUrls.map (fun a => a.url.getD "")) }
    if attsWithImages.isEmpty then Except.ok (card1, fs, 0)
    else
      match processAtts ok slug card.id attsWithImages fs [] 0 with
      | Except.error e => Except.error e
      | Except.ok (paths, fs', n) =>
        Except.ok
          ({ card1 with
              local_attachments := some (card1.local_attachments.getD [] ++ paths) },
           fs', n)

/-- The card loop of `export_board` (source lines 132-188): cards are
processed in order; an uncaught exception aborts the remaining cards. -/
def processCards (fallback : String → List Attachment) (ok : String → Bool)
    (slug : String) :
    List Card → List String → Except PyError (List Card × List String × Nat)
  | [], fs => Except.ok ([], fs, 0)
  | c :: cs, fs =>
    match processCard fallback ok slug fs c with
    | Except.error e => Except.error e
    | Except.ok (c', fs', n) =>
      match processCards fallback ok slug cs fs' with
      | Except.error e => Except.error e
      | Except.ok (cs', fs'', m) => Except.ok (c' :: cs', fs'', n + m)

/-- Source lines 116-195: `export_board` fetches the full nested board
payload (`boardFetch` is the visible behaviour of `trello_get` for that
call: parsed body or a raised non-429 HTTP error) and runs the card
loop; nothing catches errors inside `export_board`. -/
def export_board (boardFetch : String → Except Nat BoardData)
    (fallback : String → List Attachment) (ok : String → Bool)
    (board : Board) (fs : List String) :
    Except PyError (List Card × List String × Nat) :=
  match boardFetch board.id with
  | Except.error s => Except.error (PyError.httpError s)
  | Except.ok data => processCards fallback ok (boardSlug board.name) data.cards fs

/-- Source line 221: `active = [b for b in boards if not b.get("closed")]`. -/
def activeBoards (boards : List Board) : List Board :=
  boards.filter (fun b => !(b.closed.getD false))

/-- Source lines 224-227: the per-board loop of `main`.  There is no
`try`/`except` around `export_board`, so the first error ends the loop:
the result is the association list of boards that completed export (id,
processed cards), the final filesystem, and the uncaught error if any. -/
def runBoards (boardFetch : String → Except Nat BoardData)
    (fallback : String → List Attachment) (ok : String → Bool) :
    List Board → List String →
    List (String × List Card) × List String × Option PyError
  | [], fs => ([], fs, none)
  | b :: bs, fs =>
    match export_board boardFetch fallback ok b fs with
    | Except.error e => ([], fs, some e)
    | Except.ok (cards, fs', _) =>
      let r := runBoards boardFetch fallback ok bs fs'
      ((b.id, cards) :: r.1, r.2)

/-- Source lines 215-229: `main` filters the fetched board list down to
the non-closed boards and exports each in turn. -/
def mainRun (boardFetch : String → Except Nat BoardData)
    (fallback : String → List Attachment) (ok : String → Bool)
    (boards : List Board) (fs : List String) :
    List (String × List Card) × List String × Option PyError :=
  runBoards boardFetch fallback ok (activeBoards boards) fs

/-- Modelled from the spec: the host (netloc) of an absolute URL, the
text between `://` and the next `/`, `?` or `#`.  The spec's classifier
is stated in terms of this host, which the source never computes. -/
def urlHost (url : String) : String :=
  match afterSchemeMark url.toList with
  | some rest => String.mk (rest.takeWhile (fun c => !(c == '/' || c == '?' || c == '#')))
  | none => ""

/-- Modelled from the spec: native iff the URL's host belongs to the
provider's domain (`trello.com` or a subdomain) and the URL's path
contains a `/cards/` segment. -/
def is_native_spec (att : Attachment) : Bool :=
  let url := att.url.getD ""
  let host := urlHost url
  (host == "trello.com" || strEndsWithStr host ".trello.com")
    && strHasSub (urlPath url) "/cards/"

/-! Helper lemmas. -/

/-- Reading the sanitized name character-wise: `sanitizeChar` fixes `'_'`,
so `getD` with default `'_'` commutes with the map. -/
theorem getD_map_sanitizeChar (l : List Char) (i : Nat) :
    (l.map sanitizeChar).getD i '_' = sanitizeChar (l.getD i '_') := by
  induction l generalizing i with
  | nil => rfl
  | cons c rest ih =>
    cases i with
    | zero => rfl
    | succ j => exact ih j

/-- A non-429 response is consumed by a single request: `raise_for_status`
raises on 4xx/5xx, otherwise the body is returned. -/
theorem trello_get_non429 {π α : Type} (endpoint : String) (params : π)
    (r : HttpResp α) (rest : List (HttpResp α))
    (h : (r.status == 429) = false) :
    trello_get endpoint params (r :: rest)
      = ([FetchEvent.request endpoint params],
         if 400 ≤ r.status ∧ r.status < 600 then FetchOutcome.httpError r.status
         else FetchOutcome.ok r.payload) := by
  unfold trello_get
  rw [h]
  simp only [Bool.false_eq_true, if_false]
  split
  · rfl
  · rfl

/-- A 429 response triggers one sleep of `Retry-After` (default 3) and
the identical request is retried on the remaining responses. -/
theorem trello_get_429 {π α : Type} (endpoint : String) (params : π)
    (ra : Option Nat) (body : α) (rest : List (HttpResp α)) :
    trello_get endpoint params (⟨429, ra, body⟩ :: rest)
      = (FetchEvent.request endpoint params :: FetchEvent.sleep (ra.getD 3)
           :: (trello_get endpoint params rest).1,
         (trello_get endpoint params rest).2) := by
  simp [trello_get]

/-- Claim C10: with the shipped `DEBUG = True`, `export_board` skips
attachment classification, download and recording entirely for every
card whose containing-list id differs from `DEBUG_BOARD_ID`: the card is
returned untouched (in particular it never receives a
`local_attachments` field), the filesystem is unchanged and zero
download requests are made, regardless of the card's attachments. -/
theorem c10_debug_skips_other_lists (fallback : String → List Attachment)
    (ok : String → Bool) (slug : String) (fs : List String) (card : Card)
    (h : card.idList ≠ DEBUG_BOARD_ID) :
    processCard fallback ok slug fs card = Except.ok (card, fs, 0) := by
  have hb : (card.idList != DEBUG_BOARD_ID) = true := by
    simp [bne_iff_ne, h]
  unfold processCard
  rw [DEBUG, hb]
  rfl

/-- Witness for C10 at a concrete card carrying a native attachment. -/
theorem c10_debug_skips_other_lists_witness :
    processCard (fun _ => []) (fun _ => true) "B" []
      ⟨"c", "otherList",
        [⟨some "https://trello.com/1/cards/c/attachments/A/p.png", some "p.png"⟩], none⟩
      = Except.ok
        (⟨"c", "otherList",
          [⟨some "https://trello.com/1/cards/c/attachments/A/p.png", some "p.png"⟩], none⟩,
         [], 0) :=
  c10_debug_skips_other_lists (fun _ => []) (fun _ => true) "B" [] _ (by decide)

/-- Claim C4: a fetch hitting a 429 response with `Retry-After: 2`
sleeps exactly 2 time-units (≥ 2) and then issues exactly one retry
request with endpoint and parameters identical to the original, before
the new response is examined; with the header absent the sleep defaults
to 3 time-units. -/
theorem c4_rate_limit_retry {π α : Type} (endpoint : String) (params : π)
    (body : α) (r2 : HttpResp α) (rest : List (HttpResp α))
    (h : r2.status ≠ 429) :
    trello_get endpoint params (⟨429, some 2, body⟩ :: r2 :: rest)
      = ([FetchEvent.request endpoint params, FetchEvent.sleep 2,
          FetchEvent.request endpoint params],
         if 400 ≤ r2.status ∧ r2.status < 600 then FetchOutcome.httpError r2.status
         else FetchOutcome.ok r2.payload)
    ∧ trello_get endpoint params (⟨429, none, body⟩ :: r2 :: rest)
      = ([FetchEvent.request endpoint params, FetchEvent.sleep 3,
          FetchEvent.request endpoint params],
         if 400 ≤ r2.status ∧ r2.status < 600 then FetchOutcome.httpError r2.status
         else FetchOutcome.ok r2.payload) := by
  have hb : (r2.status == 429) = false := by simp [h]
  constructor
  · rw [trello_get_429, trello_get_non429 endpoint params r2 rest hb]
    simp
  · rw [trello_get_429, trello_get_non429 endpoint params r2 rest hb]
    simp

/-- Witness for C4: a concrete 429-then-200 exchange. -/
theorem c4_rate_limit_retry_witness :
    trello_get "/boards/b" (0 : Nat) [(⟨429, some 2, 0⟩ : HttpResp Nat), ⟨200, none, 7⟩]
      = ([FetchEvent.request "/boards/b" 0, FetchEvent.sleep 2,
          FetchEvent.request "/boards/b" 0],
         FetchOutcome.ok 7) := by
  have h := c4_rate_limit_retry "/boards/b" (0 : Nat) (0 : Nat)
      (⟨200, none, 7⟩ : HttpResp Nat) [] (by decide)
  simpa using h.1

/-- Counterexample to claim C2 as stated: two non-closed boards, the
first board's payload fetch raises a non-429 HTTP error (500).  The run
aborts with that error and the second board is never exported — the
per-board loop does not continue. -/
theorem c2_counterexample :
    mainRun (fun i => if i == "B1" then Except.error 500 else Except.ok ⟨[]⟩)
      (fun _ => []) (fun _ => true)
      [⟨"B1", "one", some false⟩, ⟨"B2", "two", some false⟩] []
      = ([], [], some (PyError.httpError 500)) := rfl

/-- Claim C2, amended: a non-429 HTTP error raised while fetching one
board's payload is not confined to that board — `main`'s per-board loop
has no exception handling, so the error aborts the entire run and none
of the remaining boards is exported. -/
theorem c2_board_fetch_error_aborts_run
    (boardFetch : String → Except Nat BoardData)
    (fallback : String → List Attachment) (ok : String → Bool)
    (b : Board) (bs : List Board) (fs : List String) (e : PyError)
    (h : export_board boardFetch fallback ok b fs = Except.error e) :
    runBoards boardFetch fallback ok (b :: bs) fs = ([], fs, some e) := by
  unfold runBoards
  rw [h]

/-- Witness for the amended C2 at a concrete failing board. -/
theorem c2_board_fetch_error_aborts_run_witness :
    runBoards (fun _ => Except.error 500) (fun _ => []) (fun _ => true)
      [⟨"B1", "one", some false⟩, ⟨"B2", "two", some false⟩] []
      = ([], [], some (PyError.httpError 500)) :=
  c2_board_fetch_error_aborts_run (fun _ => Except.error 500) (fun _ => [])
    (fun _ => true) ⟨"B1", "one", some false⟩ [⟨"B2", "two", some false⟩] []
    (PyError.httpError 500) rfl

/-- Claim C1 evaluated at its failing input: a run over two non-closed
boards where the first board has (in the debug list) one card with a
native attachment whose download GET fails, followed by a second card
with a foreign attachment.  The `except` branch logs the failure and
then evaluates `print(...)(...)` — a call on `None` — so the uncaught
`TypeError` aborts the card, the board and the whole run: the second
card's URL is never recorded and the second board is never exported,
contradicting the claim that a download failure never aborts anything. -/
theorem c1_download_failure_aborts_run :
    mainRun
      (fun i => if i == "B1"
        then Except.ok ⟨[⟨"abc", DEBUG_BOARD_ID,
              [⟨some "https://trello.com/1/cards/abc/attachments/XYZ/photo.png",
                some "photo.png"⟩], none⟩,
             ⟨"def2", DEBUG_BOARD_ID,
              [⟨some "https://example.com/file.pdf", some "file.pdf"⟩], none⟩]⟩
        else Except.ok ⟨[]⟩)
      (fun _ => []) (fun _ => false)
      [⟨"B1", "Board", some false⟩, ⟨"B2", "Two", some false⟩] []
      = ([], [], some (PyError.typeErrorNoneCall "photo.png")) := rfl

/-- Counterexample to claim C7 as stated: if the first download of a
(url, destination) pair fails with an HTTP error, no file is written,
so running the downloader a second time against the same destination
issues another network request (one request, not zero). -/
theorem c7_counterexample :
    (download_file (fun _ => false) "https://trello.com/x" "d" []).success = false
    ∧ download_file (fun _ => false) "https://trello.com/x" "d"
        (download_file (fun _ => false) "https://trello.com/x" "d" []).fs
      = ⟨[], 1, false⟩ :=
  ⟨rfl, rfl⟩

/-- Claim C7, amended: if the destination already exists, a download
call performs zero network requests and zero writes and returns
success; and whenever a first call returns successfully, a second call
against the same destination performs zero network requests and leaves
the filesystem unchanged.  (Only a failed first call — which writes
nothing — makes the second call issue a request.) -/
theorem c7_download_idempotent (ok : String → Bool) (url dest : String)
    (fs : List String) (h : (download_file ok url dest fs).success = true) :
    download_file ok url dest (download_file ok url dest fs).fs
      = ⟨(download_file ok url dest fs).fs, 0, true⟩
    ∧ (fs.contains dest = true → download_file ok url dest fs = ⟨fs, 0, true⟩) := by
  by_cases hm : dest ∈ fs
  · have h1 : download_file ok url dest fs = ⟨fs, 0, true⟩ := by
      simp [download_file, hm]
    constructor
    · rw [h1]
      exact h1
    · intro _
      exact h1
  · by_cases ho : ok url = true
    · have h1 : download_file ok url dest fs = ⟨dest :: fs, 1, true⟩ := by
        simp [download_file, hm, ho]
      constructor
      · rw [h1]
        simp [download_file]
      · intro hcon
        have : dest ∈ fs := by simpa using hcon
        exact absurd this hm
    · exfalso
      have hof : ok url = false := by simpa using ho
      have h1 : download_file ok url dest fs = ⟨fs, 1, false⟩ := by
        simp [download_file, hm, hof]
      rw [h1] at h
      simp at h

/-- Witness for the amended C7: a successful first download, then a
request-free second call. -/
theorem c7_download_idempotent_witness :
    download_file (fun _ => true) "u" "d" (download_file (fun _ => true) "u" "d" []).fs
      = ⟨(download_file (fun _ => true) "u" "d" []).fs, 0, true⟩ :=
  (c7_download_idempotent (fun _ => true) "u" "d" [] rfl).1

/-- Like Python's `list.index`: the first hit in `pre ++ hit :: tail` is
at position `pre.length` when `pre` contains no hit. -/
theorem firstIdx_first_hit (pre tail : List String)
    (h : "attachments" ∉ pre) :
    firstIdx (fun s => s == "attachments") (pre ++ "attachments" :: tail)
      = some pre.length := by
  induction pre with
  | nil => simp [firstIdx]
  | cons a as ih =>
    have h1 : "attachments" ≠ a := by
      intro hh
      exact h (by rw [hh]; exact List.mem_cons_self a as)
    have h2 : "attachments" ∉ as := fun hh => h (List.mem_cons_of_mem a hh)
    have ha : (a == "attachments") = false := by
      simp only [beq_eq_false_iff_ne, ne_eq]
      exact fun hh => h1 hh.symm
    simp [firstIdx, ha, ih h2]

/-- When no element is a hit, `firstIdx` finds nothing. -/
theorem firstIdx_no_hit (l : List String) (h : "attachments" ∉ l) :
    firstIdx (fun s => s == "attachments") l = none := by
  induction l with
  | nil => rfl
  | cons a as ih =>
    have h1 : "attachments" ≠ a := by
      intro hh
      exact h (by rw [hh]; exact List.mem_cons_self a as)
    have h2 : "attachments" ∉ as := fun hh => h (List.mem_cons_of_mem a hh)
    have ha : (a == "attachments") = false := by
      simp only [beq_eq_false_iff_ne, ne_eq]
      exact fun hh => h1 hh.symm
    simp [firstIdx, ha, ih h2]

/-- Indexing the element right after position `pre.length`. -/
theorem getD_after_marker (pre : List String) (y x : String) (post : List String) :
    (pre ++ y :: x :: post).getD (pre.length + 1) "unknown" = x := by
  induction pre with
  | nil => rfl
  | cons a as ih => simpa using ih

/-- Indexing one past the end of `pre ++ [y]` yields the default. -/
theorem getD_past_end (pre : List String) (y : String) :
    (pre ++ [y]).getD (pre.length + 1) "unknown" = "unknown" := by
  induction pre with
  | nil => rfl
  | cons a as ih => simpa using ih

/-- Claim C8: the attachment identifier is the path segment immediately
after the first literal `attachments` segment of the URL path; when the
path has no `attachments` segment, or nothing follows it, the extractor
totally (without raising) returns the sentinel `unknown`. -/
theorem c8_attachment_id_extraction (url : String) :
    (∀ pre x post, pathParts url = pre ++ "attachments" :: x :: post →
        "attachments" ∉ pre → extractAttachmentId url = x)
    ∧ ("attachments" ∉ pathParts url → extractAttachmentId url = "unknown")
    ∧ (∀ pre, pathParts url = pre ++ ["attachments"] →
        "attachments" ∉ pre → extractAttachmentId url = "unknown") := by
  refine ⟨?_, ?_, ?_⟩
  · intro pre x post hdec hpre
    unfold extractAttachmentId
    rw [hdec, firstIdx_first_hit pre (x :: post) hpre]
    exact getD_after_marker pre "attachments" x post
  · intro h
    unfold extractAttachmentId
    rw [firstIdx_no_hit (pathParts url) h]
  · intro pre hdec hpre
    unfold extractAttachmentId
    rw [hdec, firstIdx_first_hit pre [] hpre]
    exact getD_past_end pre "attachments"

/-- Witness for C8: the spec's well-formed URL yields `XYZ`; a URL with
no `attachments` segment yields `unknown`. -/
theorem c8_attachment_id_extraction_witness :
    extractAttachmentId "https://trello.com/1/cards/abc/attachments/XYZ/photo.png" = "XYZ"
    ∧ extractAttachmentId "https://example.com/file.pdf" = "unknown" := by
  constructor
  · exact (c8_attachment_id_extraction
        "https://trello.com/1/cards/abc/attachments/XYZ/photo.png").1
      ["", "1", "cards", "abc"] "XYZ" ["photo.png"] rfl (by decide)
  · exact (c8_attachment_id_extraction "https://example.com/file.pdf").2.1 (by decide)

/-- Claim C6: the destination of a native attachment is a pure function
of (board slug, card id, attachment id, name): it is exactly
`<slug>/attachments/<card-id>_<attachment-id>/<sanitized-name>`, where
the sanitized name has the same length as the name and each character
that is not alphanumeric, `.`, `_` or `-` is replaced by `_` (the other
characters are kept).  Determinism is immediate: the locator is a
function of these four inputs and nothing else. -/
theorem c6_local_path_shape (slug cardId attId fname : String) :
    localAttachmentPath slug cardId attId fname
      = slug ++ "/attachments/" ++ cardId ++ "_" ++ attId ++ "/" ++ sanitizeName fname
    ∧ (sanitizeName fname).toList.length = fname.toList.length
    ∧ ∀ i : Nat, (sanitizeName fname).toList.getD i '_'
        = (if (fname.toList.getD i '_').isAlphanum || (fname.toList.getD i '_') == '.'
              || (fname.toList.getD i '_') == '_' || (fname.toList.getD i '_') == '-'
           then fname.toList.getD i '_' else '_') := by
  refine ⟨rfl, ?_, ?_⟩
  · simp [sanitizeName]
  · intro i
    have hmap := getD_map_sanitizeChar fname.toList i
    simpa [sanitizeName, sanitizeChar] using hmap

/-- When every board export returns normally, the per-board loop exports
the boards it is given, in order. -/
theorem runBoards_all_ok (boardFetch : String → Except Nat BoardData)
    (fallback : String → List Attachment) (ok : String → Bool)
    (bs : List Board) (fs : List String)
    (h : ∀ b ∈ bs, ∀ fs0 : List String,
        ∃ r, export_board boardFetch fallback ok b fs0 = Except.ok r) :
    (runBoards boardFetch fallback ok bs fs).1.map Prod.fst = bs.map Board.id := by
  induction bs generalizing fs with
  | nil => rfl
  | cons b rest ih =>
    obtain ⟨r, hr⟩ := h b (List.mem_cons_self b rest) fs
    obtain ⟨cards, fs', n⟩ := r
    unfold runBoards
    rw [hr]
    simpa using ih fs' (fun b' hb' => h b' (List.mem_cons_of_mem b hb'))

/-- Claim C9: the export selection is exactly the non-closed boards —
a board is selected iff it is in the fetched list and its closed flag is
not set, and the number of selected boards is the count of non-closed
boards; when every selected board's export returns, the boards actually
exported by the run are exactly those, in order. -/
theorem c9_only_active_boards_exported (boards : List Board)
    (boardFetch : String → Except Nat BoardData)
    (fallback : String → List Attachment) (ok : String → Bool) (fs : List String)
    (h : ∀ b ∈ activeBoards boards, ∀ fs0 : List String,
        ∃ r, export_board boardFetch fallback ok b fs0 = Except.ok r) :
    (∀ b : Board, b ∈ activeBoards boards ↔ (b ∈ boards ∧ b.closed ≠ some true))
    ∧ (mainRun boardFetch fallback ok boards fs).1.map Prod.fst
        = (activeBoards boards).map Board.id
    ∧ (activeBoards boards).length
        = boards.countP (fun b => !(b.closed.getD false)) := by
  refine ⟨?_, ?_, ?_⟩
  · intro b
    rw [activeBoards, List.mem_filter]
    cases hb : b.closed with
    | none => simp [hb]
    | some c => cases c <;> simp [hb]
  · exact runBoards_all_ok boardFetch fallback ok (activeBoards boards) fs h
  · rw [activeBoards]
    exact (List.countP_eq_length_filter ..).symm

/-- Witness for C9: of three boards (closed, open, no flag) exactly the
two non-closed ones are exported. -/
theorem c9_only_active_boards_exported_witness :
    (mainRun (fun _ => Except.ok ⟨[]⟩) (fun _ => []) (fun _ => true)
        [⟨"A", "a", some true⟩, ⟨"B", "b", some false⟩, ⟨"C", "c", none⟩] []).1.map Prod.fst
      = ["B", "C"] := by
  have h := c9_only_active_boards_exported
      [⟨"A", "a", some true⟩, ⟨"B", "b", some false⟩, ⟨"C", "c", none⟩]
      (fun _ => Except.ok ⟨[]⟩) (fun _ => []) (fun _ => true) []
      (fun b _ fs0 => ⟨([], fs0, 0), rfl⟩)
  rw [h.2.1]
  rfl

/-- Counterexample to claim C5 as stated: the classifier tests
substrings of the whole URL, not the host and path.  This URL's host is
`evil.example.com` — outside the provider's domain — yet the code
classifies the attachment as native (it would be downloaded), while the
spec's host-based classifier calls it foreign. -/
theorem c5_counterexample :
    is_trello_card_image ⟨some "https://evil.example.com/trello.com/cards/x", none⟩ = true
    ∧ is_native_spec ⟨some "https://evil.example.com/trello.com/cards/x", none⟩ = false
    ∧ urlHost "https://evil.example.com/trello.com/cards/x" = "evil.example.com" :=
  ⟨rfl, rfl, rfl⟩

/-- Claim C5, amended: an attachment is classified native iff its URL is
non-empty and contains the substrings `trello.com` and `/cards/`
anywhere in the full URL (host and path are not inspected separately).
Attachments that carry a URL but are not so classified are recorded as
literal URLs in `local_attachments` and are never downloaded (zero
network requests, filesystem unchanged). -/
theorem c5_substring_classification (fallback : String → List Attachment)
    (ok : String → Bool) (slug : String) (fs : List String) (card : Card)
    (h1 : card.idList = DEBUG_BOARD_ID)
    (h2 : ∀ a ∈ resolvedAtts fallback card,
        hasUrl a = true ∧ is_trello_card_image a = false)
    (h3 : resolvedAtts fallback card ≠ []) :
    (∀ a : Attachment, is_trello_card_image a
        = (!(a.url.getD "").isEmpty && strHasSub (a.url.getD "") "trello.com"
            && strHasSub (a.url.getD "") "/cards/"))
    ∧ processCard fallback ok slug fs card
        = Except.ok ({ card with
            local_attachments := some
              ((resolvedAtts fallback card).map (fun a => a.url.getD "")) },
           fs, 0) := by
  constructor
  · intro a
    rfl
  · have hni : (card.idList != DEBUG_BOARD_ID) = false := by simp [h1]
    have himg : (resolvedAtts fallback card).filter is_trello_card_image = [] := by
      rw [List.filter_eq_nil_iff]
      intro a ha
      simp [(h2 a ha).2]
    have hurl : (resolvedAtts fallback card).filter
        (fun a => hasUrl a && !is_trello_card_image a) = resolvedAtts fallback card := by
      rw [List.filter_eq_self]
      intro a ha
      simp [(h2 a ha).1, (h2 a ha).2]
    have hne : (resolvedAtts fallback card).isEmpty = false := by
      cases hr : resolvedAtts fallback card
      · exact absurd hr h3
      · rfl
    simp [processCard, DEBUG, hni, himg, hurl, hne]

/-- Witness for the amended C5: the spec's own foreign example URL is
recorded literally with no download. -/
theorem c5_substring_classification_witness :
    processCard (fun _ => []) (fun _ => true) "Board" []
      ⟨"c5", DEBUG_BOARD_ID, [⟨some "https://example.com/file.pdf", some "file.pdf"⟩], none⟩
      = Except.ok
        (⟨"c5", DEBUG_BOARD_ID, [⟨some "https://example.com/file.pdf", some "file.pdf"⟩],
          some ["https://example.com/file.pdf"]⟩, [], 0) := by
  have h := c5_substring_classification (fun _ => []) (fun _ => true) "Board" []
      ⟨"c5", DEBUG_BOARD_ID, [⟨some "https://example.com/file.pdf", some "file.pdf"⟩], none⟩
      rfl (by decide) (by decide)
  exact h.2

/-- A native-classified attachment necessarily carries a non-empty URL. -/
theorem native_hasUrl (a : Attachment) (h : is_trello_card_image a = true) :
    hasUrl a = true := by
  simp only [is_trello_card_image, Bool.and_eq_true] at h
  simp only [hasUrl]
  exact h.1.1

/-- The two filters of `export_board` partition the URL-bearing
attachments: foreign-with-URL and native counts sum to the number of
attachments with a URL. -/
theorem filter_partition_count (l : List Attachment) :
    (l.filter (fun a => hasUrl a && !is_trello_card_image a)).length
      + (l.filter is_trello_card_image).length
      = l.countP hasUrl := by
  induction l with
  | nil => rfl
  | cons a t ih =>
    by_cases hi : is_trello_card_image a = true
    · have hu : hasUrl a = true := native_hasUrl a hi
      simp only [List.filter_cons, List.countP_cons, hi, hu, Bool.not_true,
        Bool.and_false, Bool.false_eq_true, if_false, if_true, List.length_cons, ← ih]
      omega
    · have hif : is_trello_card_image a = false := by simpa using hi
      by_cases hu : hasUrl a = true
      · simp only [List.filter_cons, List.countP_cons, hif, hu, Bool.not_false,
          Bool.and_true, Bool.false_eq_true, if_false, if_true, List.length_cons, ← ih]
        omega
      · have huf : hasUrl a = false := by simpa using hu
        simp only [List.filter_cons, List.countP_cons, hif, huf, Bool.not_false,
          Bool.false_and, Bool.false_eq_true, if_false, ← ih]
        omega

/-- When every download succeeds, the attachment loop returns normally
and appends exactly one derived destination path per attachment, in
order. -/
theorem processAtts_all_ok (ok : String → Bool) (slug cardId : String)
    (atts : List Attachment) :
    ∀ (fs acc : List String) (n : Nat),
      (∀ a ∈ atts, ok (a.url.getD "") = true) →
      ∃ fs' m, processAtts ok slug cardId atts fs acc n
          = Except.ok (acc ++ atts.map (attDest slug cardId), fs', m) := by
  induction atts with
  | nil =>
    intro fs acc n _
    exact ⟨fs, n, by simp [processAtts]⟩
  | cons a t ih =>
    intro fs acc n h
    have ha : ok (a.url.getD "") = true := h a (List.mem_cons_self a t)
    by_cases hm : attDest slug cardId a ∈ fs
    · have hdl : download_file ok (a.url.getD "") (attDest slug cardId a) fs
          = ⟨fs, 0, true⟩ := by simp [download_file, hm]
      obtain ⟨fs', m, heq⟩ := ih fs (acc ++ [attDest slug cardId a]) (n + 0)
          (fun b hb => h b (List.mem_cons_of_mem a hb))
      refine ⟨fs', m, ?_⟩
      simp only [processAtts]
      rw [hdl]
      simpa [List.append_assoc] using heq
    · have hdl : download_file ok (a.url.getD "") (attDest slug cardId a) fs
          = ⟨attDest slug cardId a :: fs, 1, true⟩ := by simp [download_file, hm, ha]
      obtain ⟨fs', m, heq⟩ := ih (attDest slug cardId a :: fs)
          (acc ++ [attDest slug cardId a]) (n + 1)
          (fun b hb => h b (List.mem_cons_of_mem a hb))
      refine ⟨fs', m, ?_⟩
      simp only [processAtts]
      rw [hdl]
      simpa [List.append_assoc] using heq

/-- Counterexample to claim C3 as stated: with the shipped `DEBUG =
True`, a card whose list id is not `DEBUG_BOARD_ID` is skipped outright,
so after export its `local_attachments` field is still absent although
its fetched payload carries one attachment with a URL — the claimed
one-entry-per-URL-attachment round-trip fails. -/
theorem c3_counterexample :
    processCard (fun _ => []) (fun _ => true) "Board" []
      ⟨"c1", "someOtherList", [⟨some "https://example.com/file.pdf", some "file.pdf"⟩], none⟩
      = Except.ok
        (⟨"c1", "someOtherList", [⟨some "https://example.com/file.pdf", some "file.pdf"⟩],
          none⟩, [], 0)
    ∧ ([(⟨some "https://example.com/file.pdf", some "file.pdf"⟩ : Attachment)].countP hasUrl)
      = 1 :=
  ⟨rfl, rfl⟩

/-- Claim C3, amended: restricted to cards in the debug list
(`idList = DEBUG_BOARD_ID`, the only cards processed under the shipped
`DEBUG = True`) and to runs where every native download succeeds, the
exported card's `local_attachments` holds exactly one entry per
attachment with a URL in the fetched payload — the literal URL for each
foreign attachment followed by the derived local path for each native
attachment — with no duplicates and no omissions (the two groups
partition the URL-bearing attachments, so the entry count equals the
URL-attachment count). -/
theorem c3_debug_list_roundtrip (fallback : String → List Attachment)
    (ok : String → Bool) (slug : String) (fs : List String) (card : Card)
    (h1 : card.idList = DEBUG_BOARD_ID)
    (h2 : card.local_attachments = none)
    (h3 : ∀ a ∈ resolvedAtts fallback card, is_trello_card_image a = true →
        ok (a.url.getD "") = true)
    (h4 : (resolvedAtts fallback card).countP hasUrl ≠ 0) :
    ∃ fs' n, processCard fallback ok slug fs card
        = Except.ok ({ card with
            local_attachments := some
              (((resolvedAtts fallback card).filter
                  (fun a => hasUrl a && !is_trello_card_image a)).map (fun a => a.url.getD "")
                ++ ((resolvedAtts fallback card).filter is_trello_card_image).map
                    (attDest slug card.id)) },
           fs', n)
        ∧ ((resolvedAtts fallback card).filter
              (fun a => hasUrl a && !is_trello_card_image a)).length
            + ((resolvedAtts fallback card).filter is_trello_card_image).length
            = (resolvedAtts fallback card).countP hasUrl := by
  have hni : (card.idList != DEBUG_BOARD_ID) = false := by simp [h1]
  have hcount := filter_partition_count (resolvedAtts fallback card)
  by_cases himg : (resolvedAtts fallback card).filter is_trello_card_image = []
  · have hwu : (resolvedAtts fallback card).filter
        (fun a => hasUrl a && !is_trello_card_image a) ≠ [] := by
      intro hnil
      apply h4
      rw [← hcount, hnil, himg]
      rfl
    have hwuE : ((resolvedAtts fallback card).filter
        (fun a => hasUrl a && !is_trello_card_image a)).isEmpty = false := by
      cases hr : (resolvedAtts fallback card).filter
          (fun a => hasUrl a && !is_trello_card_image a)
      · exact absurd hr hwu
      · rfl
    refine ⟨fs, 0, ?_, hcount⟩
    simp [processCard, DEBUG, hni, himg, hwuE]
  · have hImgE : ((resolvedAtts fallback card).filter is_trello_card_image).isEmpty
        = false := by
      cases hr : (resolvedAtts fallback card).filter is_trello_card_image
      · exact absurd hr himg
      · rfl
    have hok : ∀ a ∈ (resolvedAtts fallback card).filter is_trello_card_image,
        ok (a.url.getD "") = true := by
      intro a ha
      have hmem := List.mem_filter.mp ha
      exact h3 a hmem.1 hmem.2
    obtain ⟨fs', m, heq⟩ := processAtts_all_ok ok slug card.id
        ((resolvedAtts fallback card).filter is_trello_card_image) fs [] 0 hok
    refine ⟨fs', m, ?_, hcount⟩
    by_cases hwu : (resolvedAtts fallback card).filter
        (fun a => hasUrl a && !is_trello_card_image a) = []
    · simp [processCard, DEBUG, hni, hImgE, hwu, heq, h2]
    · have hwuE : ((resolvedAtts fallback card).filter
          (fun a => hasUrl a && !is_trello_card_image a)).isEmpty = false := by
        cases hr : (resolvedAtts fallback card).filter
            (fun a => hasUrl a && !is_trello_card_image a)
        · exact absurd hr hwu
        · rfl
      simp [processCard, DEBUG, hni, hImgE, hwuE, heq]

/-- Witness for the amended C3: a debug-list card with one native and
one foreign attachment. -/
theorem c3_debug_list_roundtrip_witness :
    ∃ fs' n, processCard (fun _ => []) (fun _ => true) "Board" []
        ⟨"abc", DEBUG_BOARD_ID,
          [⟨some "https://trello.com/1/cards/abc/attachments/XYZ/photo.png", some "photo.png"⟩,
           ⟨some "https://example.com/file.pdf", some "file.pdf"⟩], none⟩
        = Except.ok ({ (⟨"abc", DEBUG_BOARD_ID,
            [⟨some "https://trello.com/1/cards/abc/attachments/XYZ/photo.png", some "photo.png"⟩,
             ⟨some "https://example.com/file.pdf", some "file.pdf"⟩], none⟩ : Card) with
            local_attachments := some
              (((resolvedAtts (fun _ => [])
                    ⟨"abc", DEBUG_BOARD_ID,
                      [⟨some "https://trello.com/1/cards/abc/attachments/XYZ/photo.png",
                        some "photo.png"⟩,
                       ⟨some "https://example.com/file.pdf", some "file.pdf"⟩], none⟩).filter
                  (fun a => hasUrl a && !is_trello_card_image a)).map (fun a => a.url.getD "")
                ++ ((resolvedAtts (fun _ => [])
                    ⟨"abc", DEBUG_BOARD_ID,
                      [⟨some "https://trello.com/1/cards/abc/attachments/XYZ/photo.png",
                        some "photo.png"⟩,
                       ⟨some "https://example.com/file.pdf", some "file.pdf"⟩], none⟩).filter
                    is_trello_card_image).map (attDest "Board" "abc")) },
           fs', n)
        ∧ ((resolvedAtts (fun _ => [])
              ⟨"abc", DEBUG_BOARD_ID,
                [⟨some "https://trello.com/1/cards/abc/attachments/XYZ/photo.png",
                  some "photo.png"⟩,
                 ⟨some "https://example.com/file.pdf", some "file.pdf"⟩], none⟩).filter
              (fun a => hasUrl a && !is_trello_card_image a)).length
            + ((resolvedAtts (fun _ => [])
              ⟨"abc", DEBUG_BOARD_ID,
                [⟨some "https://trello.com/1/cards/abc/attachments/XYZ/photo.png",
                  some "photo.png"⟩,
                 ⟨some "https://example.com/file.pdf", some "file.pdf"⟩], none⟩).filter
                is_trello_card_image).length
            = (resolvedAtts (fun _ => [])
              ⟨"abc", DEBUG_BOARD_ID,
                [⟨some "https://trello.com/1/cards/abc/attachments/XYZ/photo.png",
                  some "photo.png"⟩,
                 ⟨some "https://example.com/file.pdf", some "file.pdf"⟩], none⟩).countP hasUrl :=
  c3_debug_list_roundtrip (fun _ => []) (fun _ => true) "Board" []
    ⟨"abc", DEBUG_BOARD_ID,
      [⟨some "https://trello.com/1/cards/abc/attachments/XYZ/photo.png", some "photo.png"⟩,
       ⟨some "https://example.com/file.pdf", some "file.pdf"⟩], none⟩
    rfl rfl (by decide) (by decide)

end TrelloBackup
